import Mathlib

/-!
Verification of the `TeslaStream` streaming client (and its backoff
calculator) against its natural-language specification.  The definitions
below are a shallow embedding of the JavaScript class `TeslaStream`:
pure functions become Lean functions, the mutable instance fields become
a `Client` record, every websocket / timer callback becomes an explicit
step function on `Client`, and JavaScript numbers are modelled as exact
rationals (`ℚ`) with `Math.round x = ⌊x + 1/2⌋`.  A handler that would
raise an uncaught JavaScript exception is modelled by a `crash` field in
the step result holding the error's description; the field mutations
performed before the throwing statement are kept, as in JavaScript.
-/

namespace TeslaStream

/-- JavaScript `Math.round`: rounds half toward positive infinity. -/
def jsRound (x : ℚ) : ℤ := ⌊x + 1/2⌋

/-- The method `#expBackOffMs(exp, minSeconds, maxSeconds, base = 2)`:
`let ms = Math.max(Math.pow(base, exp), minSeconds);
 return Math.round(Math.min(ms, maxSeconds) * 1000);` -/
def expBackOffMs (exp : ℕ) (minSeconds maxSeconds : ℚ) (base : ℚ := 2) : ℤ :=
  jsRound (min (max (base ^ exp) minSeconds) maxSeconds * 1000)

/-- The function `clamp(x, lo, hi)` as used by the specification's formula. -/
def clampQ (x lo hi : ℚ) : ℚ := min (max x lo) hi

/-- Modelled from the spec's words (for the refinement claim about the
backoff formula): `delay(attempt, floorSeconds, ceilingSeconds, base) =
round(clamp(base^attempt, floorSeconds, ceilingSeconds) * 1000)` ms. -/
def delaySpec (attempt : ℕ) (floorSeconds ceilingSeconds base : ℚ) : ℤ :=
  jsRound (clampQ (base ^ attempt) floorSeconds ceilingSeconds * 1000)

/-- JavaScript `Array.prototype.indexOf`: first index or `-1`. -/
def jsIndexOf (x : String) : List String → ℤ
  | [] => -1
  | y :: ys =>
    if y = x then 0
    else
      let r := jsIndexOf x ys
      if r = -1 then -1 else r + 1

/-- JavaScript `str.split(",")` (single-character separator, so no empty
separator and no limit cases arise). -/
def splitCommaList : List Char → List String
  | [] => [""]
  | ch :: rest =>
    let r := splitCommaList rest
    if ch = ',' then "" :: r
    else
      match r with
      | [] => [String.mk [ch]]
      | s :: ss => String.mk (ch :: s.data) :: ss

/-- Apply `value.split(",")` to a string. -/
def splitComma (s : String) : List String := splitCommaList s.data

/-- The connection-state constants `CONNECTING = 1 … CLOSED = 4`. -/
inductive ConnState
  | connecting
  | connected
  | closing
  | closed
deriving DecidableEq

/-- The readiness states of the `ws` websocket handle. -/
inductive WsReady
  | wsConnecting
  | wsOpen
  | wsClosing
  | wsClosed
deriving DecidableEq

/-- The values the `connect` call captures in the closures it installs as
websocket event handlers: the `tag`, `token`, `columns` and
`resubscribeDelay` arguments, and the computed `shiftStatePos`. -/
structure ConnArgs where
  tag : String
  token : String
  columns : Option (List String)
  resubscribeDelay : ℚ
  shiftStatePos : ℤ
deriving DecidableEq

/-- The websocket handle: its readiness, whether `disconnect` has replaced
the original `open` listener with the deferred-disconnect closure (which
refers to the bare name `disconnect`, not `this.disconnect`), and the
captured handler arguments. -/
structure Ws where
  readyState : WsReady
  openBroken : Bool
  args : ConnArgs
deriving DecidableEq

/-- What a pending `setTimeout` callback will do when it fires. -/
inductive TimerAction
  | healthTimeout
  | resubscribe (tag token : String)
  | reconnectConnect (tag token : String) (columns : Option (List String))
deriving DecidableEq

/-- A live (pending) timer: its handle, callback and delay. -/
structure TimerRec where
  id : ℕ
  action : TimerAction
  delayMs : ℤ
deriving DecidableEq

/-- The mutable instance fields of a `TeslaStream` object, plus the set of
live timers of the runtime (so that the single-pending-timer invariant is
a real statement, not one true by construction). -/
structure Client where
  state : ConnState
  ws : Option Ws
  columns : List String
  checkTimeout : Option ℕ
  timeouts : ℕ
  disconnects : ℕ
  reconnect : Bool
  tag : Option String
  lastShiftState : Option String
  timers : List TimerRec
  nextTimerId : ℕ
deriving DecidableEq

/-- The static field `TeslaStream.DEFAULT_COLUMNS`. -/
def DEFAULT_COLUMNS : List String :=
  ["elevation", "est_heading", "est_lat", "est_lng", "odometer", "power",
   "shift_state", "speed", "soc"]

/-- The constructor: `state = CLOSED`, counters 0, `reconnect = true`. -/
def initClient : Client :=
  { state := .closed, ws := none, columns := DEFAULT_COLUMNS,
    checkTimeout := none, timeouts := 0, disconnects := 0, reconnect := true,
    tag := none, lastShiftState := none, timers := [], nextTimerId := 0 }

/-- A parsed inbound frame (or one that fails to parse). -/
inductive Msg
  | hello
  | update (value : String)
  | dataError (errorType value : String)
  | noErrType (raw : String)
  | unknownType (raw : String)
  | malformed (raw : String)
deriving DecidableEq

/-- Caller-visible events the client `emit`s. -/
inductive EmitEv
  | streamEv (values : List String)
  | inactiveEv
  | tooManyDisconnectsEv
  | offlineEv
  | errorEv (payload : String)
deriving DecidableEq

/-- Outbound control frames sent on the websocket. -/
inductive OutFrame
  | subscribeFrame (token value tag : String)
  | unsubscribeFrame (tag : Option String)
deriving DecidableEq

/-- Observable actions of one handler run. -/
inductive Output
  | logOut (msg level : String)
  | emitOut (event : EmitEv)
  | sendOut (frame : OutFrame)
  | closeCall
deriving DecidableEq

/-- Result of running one handler: the new client, its observable
outputs in order, and the uncaught exception if one was thrown. -/
structure StepRes where
  client : Client
  out : List Output
  crash : Option String
deriving DecidableEq

/-- The call `clearTimeout(h)`: removes the pending timer with handle `h`;
a no-op on `null` or on an already-fired/cleared handle. -/
def clearT (h : Option ℕ) (c : Client) : Client :=
  { c with timers :=
      match h with
      | none => c.timers
      | some i => c.timers.filter (fun t => t.id != i) }

/-- The assignment `this.checkTimeout = setTimeout(action, ms)`: registers a fresh timer
and stores its handle. -/
def armCheck (a : TimerAction) (ms : ℤ) (c : Client) : Client :=
  { c with timers := c.timers ++ [⟨c.nextTimerId, a, ms⟩],
           checkTimeout := some c.nextTimerId,
           nextTimerId := c.nextTimerId + 1 }

/-- The sequence `clearTimeout(this.checkTimeout); this.checkTimeout = setTimeout(...)`
(the guard `if (this.checkTimeout != null)` is absorbed in `clearT`). -/
def rearmCheck (a : TimerAction) (ms : ℤ) (c : Client) : Client :=
  armCheck a ms (clearT c.checkTimeout c)

/-- The test `this.lastShiftState != null && this.lastShiftState != ""` with
JavaScript loose inequality (`undefined != null` is false). -/
def shiftStateNonEmpty : Option String → Bool
  | some s => s != ""
  | none => false

/-- The method `#subscribe(tag, token)`: logs and sends the subscribe frame built
from the current `this.columns`. -/
def subscribeOuts (tag token : String) (c : Client) : List Output :=
  [.logOut "Subscribing to stream..." "debug",
   .sendOut (.subscribeFrame token (String.intercalate "," c.columns) tag)]

/-- The method `disconnect(reconnect = false, unsubscribe = true)`. -/
def disconnectFn (reconnect unsubscribe : Bool) (c : Client) : StepRes :=
  if c.state = .closed then ⟨c, [], none⟩
  else
    let c1 : Client := { c with reconnect := reconnect }
    let c2 : Client := { clearT c1.checkTimeout c1 with checkTimeout := none }
    match c2.ws with
    | none => ⟨{ c2 with ws := none, state := .closed }, [], none⟩
    | some w =>
      if w.readyState = .wsClosed then
        ⟨{ c2 with ws := none, state := .closed }, [], none⟩
      else if w.readyState = .wsConnecting then
        ⟨{ c2 with ws := some { w with openBroken := true } }, [], none⟩
      else
        let c3 : Client := { c2 with state := .closing }
        if w.readyState ≠ .wsClosing then
          ⟨{ c3 with ws := some { w with readyState := .wsClosing } },
           (if unsubscribe then
              [Output.logOut "Unsubscribing..." "debug",
               Output.sendOut (.unsubscribeFrame c3.tag)]
            else []) ++
           [Output.logOut "Sending closing frame..." "debug", Output.closeCall],
           none⟩
        else ⟨c3, [], none⟩

/-- The method `#reconnect()`: log, then `disconnect(true, false)`. -/
def reconnectFn (c : Client) : StepRes :=
  let r := disconnectFn true false c
  ⟨r.client, .logOut "Disconnecting and reconnecting..." "debug" :: r.out, r.crash⟩

/-- The method `#timeout()`: the health-check timer callback. -/
def timeoutFn (c : Client) : StepRes :=
  let c1 : Client := { c with timeouts := c.timeouts + 1 }
  let outs :=
    [Output.logOut ("Stream connection timed out / " ++ toString c1.timeouts)
      (if c1.timeouts < 8 then "debug" else "info")] ++
    (if c1.timeouts % 3 = 0 then
      [Output.logOut "Stream inactive!" "debug", Output.emitOut .inactiveEv]
     else [])
  let r := reconnectFn c1
  ⟨r.client, outs ++ r.out, r.crash⟩

/-- The method `#disconnectResubscribe(tag, token, reason, minDelay)`. -/
def disconnectResubscribeFn (tag token reason : String) (minDelay : ℚ)
    (c : Client) : StepRes :=
  let c1 : Client := { c with disconnects := c.disconnects + 1 }
  let outs :=
    [Output.logOut
      (reason ++ (if c1.disconnects = 1 then "" else " / " ++ toString c1.disconnects))
      (if c1.disconnects < 8 then "debug" else "info")]
  let c2 := clearT c1.checkTimeout c1
  if c2.disconnects % 10 = 0 then
    ⟨c2, outs ++ [Output.logOut "Too many disconnects!" "warn",
                  Output.emitOut .tooManyDisconnectsEv], none⟩
  else
    let ms :=
      if shiftStateNonEmpty c2.lastShiftState then
        expBackOffMs c2.disconnects 0 8 (13/10)
      else
        expBackOffMs c2.disconnects minDelay 120
    ⟨armCheck (.resubscribe tag token) ms c2,
     outs ++ [Output.logOut
       ("Waiting for " ++ toString (jsRound ((ms : ℚ) / 1000)) ++ " sec...") "debug"],
     none⟩

/-- The `'message'` handler installed by `connect`, with its captured
arguments.  Every inbound message first rearms the health timer to 15 s;
a frame that fails `JSON.parse` throws after that rearm; the `default:`
branch of the `error_type` switch throws because it references the
undefined identifier `data` while evaluating its log argument. -/
def messageFn (args : ConnArgs) (m : Msg) (c : Client) : StepRes :=
  let c1 := rearmCheck .healthTimeout 15000 c
  match m with
  | .malformed _ => ⟨c1, [], some "SyntaxError: JSON.parse: unexpected input"⟩
  | .hello =>
    ⟨{ c1 with state := .connected },
     [.logOut "Hello response received." "debug"], none⟩
  | .update v =>
    let values := splitComma v
    let c2 : Client := { c1 with timeouts := 0, disconnects := 0 }
    let c3 : Client :=
      if args.shiftStatePos > -1 then
        { c2 with lastShiftState := values.get? (args.shiftStatePos.toNat + 1) }
      else c2
    ⟨c3, [.emitOut (.streamEv values)], none⟩
  | .dataError et v =>
    if et = "vehicle_disconnected" then
      disconnectResubscribeFn args.tag args.token "Vehicle disconnected"
        args.resubscribeDelay c1
    else if et = "vehicle_error" then
      let outs := if v = "Vehicle is offline" then [Output.emitOut .offlineEv] else []
      let r := disconnectResubscribeFn args.tag args.token ("Vehicle error: " ++ v)
        args.resubscribeDelay c1
      ⟨r.client, outs ++ r.out, r.crash⟩
    else if et = "client_error" then
      let r := reconnectFn c1
      ⟨r.client,
       [Output.logOut ("Client error: " ++ v) "error", Output.emitOut (.errorEv v)] ++ r.out,
       r.crash⟩
    else
      ⟨c1, [], some "ReferenceError: data is not defined"⟩
  | .noErrType raw =>
    ⟨c1, [.logOut ("Unknown message: " ++ raw) "error", .emitOut (.errorEv raw)], none⟩
  | .unknownType raw =>
    ⟨c1, [.logOut ("Unknown message: " ++ raw) "error", .emitOut (.errorEv raw)], none⟩

/-- The method `connect(tag, token, columns = null, resubscribeDelay = 30)`.  The
client is the first parameter so the trailing default mirrors the JS
default parameter. -/
def connectFn (c : Client) (tag token : String) (columns : Option (List String))
    (resubscribeDelay : ℚ := 30) : StepRes :=
  let c1 : Client := { c with tag := some tag }
  let c2 : Client :=
    match columns with
    | some cols => { c1 with columns := cols }
    | none => c1
  let shiftStatePos := jsIndexOf "shift_state" c2.columns
  let c3 : Client :=
    match c2.ws with
    | some _ => if c2.state = .closing then { c2 with reconnect := true } else c2
    | none => c2
  let proceed : Bool :=
    match c2.ws with
    | some w => w.readyState == .wsClosed
    | none => true
  if proceed then
    let c4 : Client :=
      { c3 with
        state := .connecting,
        ws := some ⟨.wsConnecting, false,
          ⟨tag, token, columns, resubscribeDelay, shiftStatePos⟩⟩ }
    ⟨rearmCheck .healthTimeout (expBackOffMs c4.timeouts 10 30) c4,
     [.logOut "Connecting to websocket..." "debug"], none⟩
  else ⟨c3, [], none⟩

/-- The `'open'` handler: the websocket becomes open, then either the
original listener subscribes, or — if `disconnect` replaced it with the
deferred-disconnect closure — the bare reference to `disconnect` throws. -/
def openFn (c : Client) : StepRes :=
  match c.ws with
  | none => ⟨c, [], none⟩
  | some w =>
    let c1 : Client := { c with ws := some { w with readyState := .wsOpen } }
    if w.openBroken then
      ⟨c1, [], some "ReferenceError: disconnect is not defined"⟩
    else
      ⟨c1, .logOut "Websocket open." "debug" ::
           subscribeOuts (c1.tag.getD "") w.args.token c1, none⟩

/-- The `'close'` handler, with the captured `connect` arguments. -/
def closeFn (args : ConnArgs) (code : ℕ) (reason : String) (c : Client) : StepRes :=
  let outs :=
    [Output.logOut ("Websocket closed (" ++ toString code ++
      (if reason ≠ "" then ": " ++ reason else "") ++ ").") "debug"]
  let c1 : Client :=
    if code = 1006 ∧ c.state ≠ .closing then { c with reconnect := true } else c
  let c2 := clearT c1.checkTimeout c1
  let c3 : Client := { c2 with ws := none, state := .closed }
  if c3.reconnect then
    ⟨armCheck (.reconnectConnect args.tag args.token args.columns) 1000 c3, outs, none⟩
  else ⟨c3, outs, none⟩

/-- A pending timer fires: it leaves the pending set, then its callback
runs.  The reconnect callback is `this.connect(tag, token, columns)` —
the `resubscribeDelay` argument is omitted, so `connectFn`'s default 30
applies. -/
def fireTimerFn (i : ℕ) (c : Client) : StepRes :=
  match c.timers.find? (fun t => t.id == i) with
  | none => ⟨c, [], none⟩
  | some t =>
    let c1 : Client := { c with timers := c.timers.filter (fun r => r.id != i) }
    match t.action with
    | .healthTimeout => timeoutFn c1
    | .resubscribe tag token =>
      match c1.ws with
      | none => ⟨c1, [], some "TypeError: this.ws is null"⟩
      | some _ => ⟨c1, subscribeOuts tag token c1, none⟩
    | .reconnectConnect tag token cols =>
      let r := connectFn c1 tag token cols
      ⟨r.client, .logOut "Reconnecting..." "debug" :: r.out, r.crash⟩

/-- The external events that can reach a client. -/
inductive Ev
  | callConnect (tag token : String) (columns : Option (List String)) (resubscribeDelay : ℚ)
  | callDisconnect (reconnect unsubscribe : Bool)
  | wsOpen
  | wsMessage (m : Msg)
  | wsClose (code : ℕ) (reason : String)
  | fireTimer (id : ℕ)
deriving DecidableEq

/-- One step of the event-driven client: websocket events are dispatched
to the handlers of the current websocket (no-ops when none exists). -/
def step (ev : Ev) (c : Client) : StepRes :=
  match ev with
  | .callConnect tag token cols rd => connectFn c tag token cols rd
  | .callDisconnect r u => disconnectFn r u c
  | .wsOpen => openFn c
  | .wsMessage m =>
    match c.ws with
    | none => ⟨c, [], none⟩
    | some w => messageFn w.args m c
  | .wsClose code reason =>
    match c.ws with
    | none => ⟨c, [], none⟩
    | some w => closeFn w.args code reason c
  | .fireTimer i => fireTimerFn i c

/-- The single-pending-timer invariant: at most one live timer, and every
live timer is the one `checkTimeout` points at. -/
def ClientInv (c : Client) : Prop :=
  c.timers.length ≤ 1 ∧ ∀ t ∈ c.timers, c.checkTimeout = some t.id

instance (c : Client) : Decidable (ClientInv c) := by
  unfold ClientInv
  infer_instance

/-- One step of the vehicle-disconnected error scenario. -/
def vdStep (v : String) (c : Client) : StepRes :=
  step (.wsMessage (.dataError "vehicle_disconnected" v)) c

/-- A run of `n` consecutive `vehicle_disconnected` errors with no
intervening `data:update`. -/
def vdRun (v : String) : ℕ → Client → Client
  | 0, c => c
  | n + 1, c => vdRun v n (vdStep v c).client

/-- Scenario: a fresh client after `connect("t1", "tok",
["shift_state", "speed"])`. -/
def scnConnect : Client :=
  (step (.callConnect "t1" "tok" (some ["shift_state", "speed"]) 30) initClient).client

/-- The websocket handle `scnConnect` holds. -/
def scnWs : Ws :=
  ⟨.wsConnecting, false, ⟨"t1", "tok", some ["shift_state", "speed"], 30, 0⟩⟩

/-- Scenario continued: the server has sent `control:hello`. -/
def scnHello : Client := (step (.wsMessage .hello) scnConnect).client

/-- Scenario: `disconnect(false)` called on `scnConnect` while the
transport is still opening. -/
def scnDeferred : Client := (step (.callDisconnect false true) scnConnect).client

/-- Scenario continued: the transport's `open` event then fires. -/
def scnDeferredOpen : StepRes := step .wsOpen scnDeferred

lemma jsRound_mono {x y : ℚ} (h : x ≤ y) : jsRound x ≤ jsRound y :=
  Int.floor_le_floor (by linarith)

lemma jsRound_intCast (n : ℤ) : jsRound (n : ℚ) = n := by
  unfold jsRound
  rw [add_comm, Int.floor_add_int]
  norm_num

/-- C2: For every attempt counter and every profile with
`floorSeconds ≤ ceilingSeconds` (both whole seconds, as in every profile
the client uses) and growth base at least 1, the backoff delay equals the
specification's `round(clamp(base^attempt, floor, ceiling) * 1000)`
milliseconds, is monotonically non-decreasing in the attempt counter, and
stays between `floor * 1000` and `ceiling * 1000` milliseconds. -/
theorem backoff_delay_formula_monotone_bounded
    (a a' f c : ℕ) (base : ℚ)
    (hfc : f ≤ c) (hb : 1 ≤ base) (haa : a ≤ a') :
    expBackOffMs a f c base = delaySpec a f c base ∧
    expBackOffMs a f c base ≤ expBackOffMs a' f c base ∧
    (f : ℤ) * 1000 ≤ expBackOffMs a f c base ∧
    expBackOffMs a f c base ≤ (c : ℤ) * 1000 := by
  have hfc' : (f : ℚ) ≤ (c : ℚ) := by exact_mod_cast hfc
  refine ⟨rfl, ?_, ?_, ?_⟩
  · apply jsRound_mono
    have hpow : base ^ a ≤ base ^ a' := pow_le_pow_right₀ hb haa
    exact mul_le_mul_of_nonneg_right
      (min_le_min (max_le_max hpow le_rfl) le_rfl) (by norm_num)
  · have h1 : (f : ℚ) ≤ min (max (base ^ a) f) c :=
      le_min (le_max_right _ _) hfc'
    have h2 : ((((f : ℤ)) * 1000 : ℤ) : ℚ) ≤ min (max (base ^ a) f) c * 1000 := by
      push_cast
      exact mul_le_mul_of_nonneg_right h1 (by norm_num)
    calc (f : ℤ) * 1000 = jsRound ((((f : ℤ) * 1000 : ℤ)) : ℚ) :=
          (jsRound_intCast _).symm
      _ ≤ expBackOffMs a f c base := jsRound_mono h2
  · have h1 : min (max (base ^ a) f) c ≤ (c : ℚ) := min_le_right _ _
    have h2 : min (max (base ^ a) f) c * 1000 ≤ ((((c : ℤ)) * 1000 : ℤ) : ℚ) := by
      push_cast
      exact mul_le_mul_of_nonneg_right h1 (by norm_num)
    calc expBackOffMs a f c base ≤ jsRound ((((c : ℤ) * 1000 : ℤ)) : ℚ) :=
          jsRound_mono h2
      _ = (c : ℤ) * 1000 := jsRound_intCast _

/-- Witness for C2 at `delay(1, 10, 30, 2)` versus `delay(3, 10, 30, 2)`
(the initial health-check profile). -/
theorem backoff_delay_formula_monotone_bounded_witness :
    ((10 : ℕ) ≤ 30 ∧ (1 : ℚ) ≤ 2 ∧ (1 : ℕ) ≤ 3) ∧
    (expBackOffMs 1 ((10 : ℕ) : ℚ) ((30 : ℕ) : ℚ) 2 =
       delaySpec 1 ((10 : ℕ) : ℚ) ((30 : ℕ) : ℚ) 2 ∧
     expBackOffMs 1 ((10 : ℕ) : ℚ) ((30 : ℕ) : ℚ) 2 ≤
       expBackOffMs 3 ((10 : ℕ) : ℚ) ((30 : ℕ) : ℚ) 2 ∧
     ((10 : ℕ) : ℤ) * 1000 ≤ expBackOffMs 1 ((10 : ℕ) : ℚ) ((30 : ℕ) : ℚ) 2 ∧
     expBackOffMs 1 ((10 : ℕ) : ℚ) ((30 : ℕ) : ℚ) 2 ≤ ((30 : ℕ) : ℤ) * 1000) :=
  ⟨⟨by decide, one_le_two, by decide⟩,
   backoff_delay_formula_monotone_bounded 1 3 10 30 2 (by decide) one_le_two (by decide)⟩

lemma clientInv_of_timers_nil {c : Client} (h : c.timers = []) : ClientInv c := by
  refine ⟨by simp [h], ?_⟩
  intro t ht
  rw [h] at ht
  cases ht

lemma clientInv_congr {c c' : Client} (ht : c'.timers = c.timers)
    (hc : c'.checkTimeout = c.checkTimeout) (h : ClientInv c) : ClientInv c' := by
  unfold ClientInv at h ⊢
  rw [ht, hc]
  exact h

lemma clearT_stored_timers {c : Client} (h : ClientInv c) :
    (clearT c.checkTimeout c).timers = [] := by
  obtain ⟨-, h2⟩ := h
  cases hc : c.checkTimeout with
  | none =>
    show (match none with
      | none => c.timers
      | some i => c.timers.filter (fun t => t.id != i)) = []
    cases ht : c.timers with
    | nil => simp
    | cons t ts =>
      have := h2 t (by rw [ht]; exact List.mem_cons_self t ts)
      rw [hc] at this
      cases this
  | some i =>
    show (match some i with
      | none => c.timers
      | some j => c.timers.filter (fun t => t.id != j)) = []
    simp only
    rw [List.filter_eq_nil_iff]
    intro t ht
    have := h2 t ht
    rw [hc] at this
    simp only [Option.some.injEq] at this
    simp [this]

lemma armCheck_inv {c : Client} {a : TimerAction} {ms : ℤ} (h : c.timers = []) :
    ClientInv (armCheck a ms c) := by
  constructor
  · simp [armCheck, h]
  · intro t ht
    simp only [armCheck, h, List.nil_append, List.mem_singleton] at ht
    subst ht
    rfl

lemma rearmCheck_inv {c : Client} {a : TimerAction} {ms : ℤ} (h : ClientInv c) :
    ClientInv (rearmCheck a ms c) :=
  armCheck_inv (clearT_stored_timers h)


lemma disconnectFn_inv (r u : Bool) {c : Client} (h : ClientInv c) :
    ClientInv (disconnectFn r u c).client := by
  unfold disconnectFn
  split
  · exact h
  · have h1 : ClientInv { c with reconnect := r } := clientInv_congr rfl rfl h
    have h2 := clearT_stored_timers h1
    dsimp only [clearT] at h2 ⊢
    rw [h2]
    split
    · exact clientInv_of_timers_nil rfl
    · split
      · exact clientInv_of_timers_nil rfl
      · split
        · exact clientInv_of_timers_nil rfl
        · split
          · exact clientInv_of_timers_nil rfl
          · exact clientInv_of_timers_nil rfl

lemma reconnectFn_inv {c : Client} (h : ClientInv c) :
    ClientInv (reconnectFn c).client :=
  disconnectFn_inv true false h

lemma timeoutFn_inv {c : Client} (h : ClientInv c) :
    ClientInv (timeoutFn c).client :=
  reconnectFn_inv (clientInv_congr rfl rfl h)

lemma disconnectResubscribeFn_inv (tag token reason : String) (minDelay : ℚ)
    {c : Client} (h : ClientInv c) :
    ClientInv (disconnectResubscribeFn tag token reason minDelay c).client := by
  unfold disconnectResubscribeFn
  have h1 : ClientInv { c with disconnects := c.disconnects + 1 } :=
    clientInv_congr rfl rfl h
  have h2 := clearT_stored_timers h1
  dsimp only [clearT] at h2 ⊢
  rw [h2]
  split
  · exact clientInv_of_timers_nil rfl
  · exact armCheck_inv rfl

lemma messageFn_inv (args : ConnArgs) (m : Msg) {c : Client} (h : ClientInv c) :
    ClientInv (messageFn args m c).client := by
  have h1 : ClientInv (rearmCheck .healthTimeout 15000 c) := rearmCheck_inv h
  unfold messageFn
  match m with
  | .malformed raw => exact h1
  | .hello => exact clientInv_congr rfl rfl h1
  | .update v =>
    dsimp only
    split
    · exact clientInv_congr rfl rfl h1
    · exact clientInv_congr rfl rfl h1
  | .dataError et v =>
    dsimp only
    split
    · exact disconnectResubscribeFn_inv _ _ _ _ h1
    · split
      · exact disconnectResubscribeFn_inv _ _ _ _ h1
      · split
        · exact reconnectFn_inv h1
        · exact h1
  | .noErrType raw => exact h1
  | .unknownType raw => exact h1

lemma connectFn_inv {c : Client} (tag token : String)
    (columns : Option (List String)) (rd : ℚ) (h : ClientInv c) :
    ClientInv (connectFn c tag token columns rd).client := by
  unfold connectFn
  cases columns <;> cases hw : c.ws <;> dsimp only <;> split <;>
    first
      | exact rearmCheck_inv (clientInv_congr rfl rfl h)
      | (split <;>
          first
            | exact rearmCheck_inv (clientInv_congr rfl rfl h)
            | exact clientInv_congr rfl rfl h)
      | exact clientInv_congr rfl rfl h

lemma openFn_inv {c : Client} (h : ClientInv c) : ClientInv (openFn c).client := by
  unfold openFn
  split
  · exact h
  · split
    · exact clientInv_congr rfl rfl h
    · exact clientInv_congr rfl rfl h

lemma closeFn_inv (args : ConnArgs) (code : ℕ) (reason : String) {c : Client}
    (h : ClientInv c) : ClientInv (closeFn args code reason c).client := by
  unfold closeFn
  dsimp only
  split
  · have h2 := clearT_stored_timers
      (clientInv_congr rfl rfl h : ClientInv { c with reconnect := true })
    dsimp only [clearT] at h2 ⊢
    rw [h2]
    split
    · exact armCheck_inv rfl
    · exact clientInv_of_timers_nil rfl
  · have h2 := clearT_stored_timers h
    dsimp only [clearT] at h2 ⊢
    rw [h2]
    split
    · exact armCheck_inv rfl
    · exact clientInv_of_timers_nil rfl

lemma filterTimers_inv {c : Client} (i : ℕ) (h : ClientInv c) :
    ClientInv { c with timers := c.timers.filter (fun r => r.id != i) } := by
  obtain ⟨h1, h2⟩ := h
  constructor
  · exact le_trans (List.length_filter_le _ _) h1
  · intro t ht
    exact h2 t (List.mem_of_mem_filter ht)

lemma fireTimerFn_inv (i : ℕ) {c : Client} (h : ClientInv c) :
    ClientInv (fireTimerFn i c).client := by
  unfold fireTimerFn
  split
  · exact h
  · have h1 : ClientInv { c with timers := c.timers.filter (fun r => r.id != i) } :=
      filterTimers_inv i h
    dsimp only
    split
    · exact timeoutFn_inv h1
    · split
      · exact h1
      · exact h1
    · exact connectFn_inv _ _ _ _ h1

lemma step_inv (ev : Ev) {c : Client} (h : ClientInv c) :
    ClientInv (step ev c).client := by
  cases ev with
  | callConnect tag token cols rd => exact connectFn_inv tag token cols rd h
  | callDisconnect r u => exact disconnectFn_inv r u h
  | wsOpen => exact openFn_inv h
  | wsMessage m =>
    unfold step
    dsimp only
    split
    · exact h
    · exact messageFn_inv _ m h
  | wsClose code reason =>
    unfold step
    dsimp only
    split
    · exact h
    · exact closeFn_inv _ code reason h
  | fireTimer i => exact fireTimerFn_inv i h

/-- C6: Arming a new timer always cancels the pending one first: the
property "at most one live timer exists, and it is the one `checkTimeout`
refers to" is preserved by every event the client can process (connect
and disconnect calls, open / message / close transport events, and timer
firings, covering all four timer-arming sites of the code). -/
theorem single_pending_timer_invariant (c : Client) (ev : Ev)
    (h : ClientInv c) : ClientInv (step ev c).client :=
  step_inv ev h

/-- Witness for C6: the invariant holds after connecting and receiving
`control:hello` and is preserved by a further inbound message. -/
theorem single_pending_timer_invariant_witness :
    ClientInv scnHello ∧
    ClientInv (step (.wsMessage (.update "1,2")) scnHello).client :=
  ⟨by decide, single_pending_timer_invariant scnHello _ (by decide)⟩


lemma disconnectResubscribeFn_spec (tag token reason : String) (minDelay : ℚ)
    {c : Client} (hinv : ClientInv c) :
    if (c.disconnects + 1) % 10 = 0 then
      (disconnectResubscribeFn tag token reason minDelay c).client.timers = [] ∧
      Output.emitOut .tooManyDisconnectsEv ∈
        (disconnectResubscribeFn tag token reason minDelay c).out
    else
      (disconnectResubscribeFn tag token reason minDelay c).client.timers =
        [⟨c.nextTimerId, .resubscribe tag token,
          if shiftStateNonEmpty c.lastShiftState then
            expBackOffMs (c.disconnects + 1) 0 8 (13/10)
          else expBackOffMs (c.disconnects + 1) minDelay 120⟩] ∧
      Output.emitOut .tooManyDisconnectsEv ∉
        (disconnectResubscribeFn tag token reason minDelay c).out := by
  have h1 : ClientInv { c with disconnects := c.disconnects + 1 } :=
    clientInv_congr rfl rfl hinv
  have h2 := clearT_stored_timers h1
  unfold disconnectResubscribeFn
  dsimp only [clearT, armCheck] at h2 ⊢
  rw [h2]
  split
  · exact ⟨rfl, by simp⟩
  · exact ⟨rfl, by simp⟩

lemma vdStep_effects (v : String) {c : Client} {w : Ws} (hws : c.ws = some w) :
    (vdStep v c).client.ws = some w ∧
    (vdStep v c).client.disconnects = c.disconnects + 1 ∧
    (vdStep v c).client.lastShiftState = c.lastShiftState ∧
    (vdStep v c).client.state = c.state ∧
    (vdStep v c).client.columns = c.columns := by
  unfold vdStep step
  rw [hws]
  unfold messageFn
  dsimp only
  rw [if_pos rfl]
  unfold disconnectResubscribeFn
  dsimp only [clearT, armCheck, rearmCheck]
  split <;> (dsimp only; exact ⟨hws, rfl, rfl, rfl, rfl⟩)

lemma vdRun_effects (v : String) (k : ℕ) {c : Client} {w : Ws}
    (hws : c.ws = some w) (hinv : ClientInv c) :
    (vdRun v k c).ws = some w ∧
    (vdRun v k c).disconnects = c.disconnects + k ∧
    (vdRun v k c).lastShiftState = c.lastShiftState ∧
    ClientInv (vdRun v k c) := by
  induction k generalizing c with
  | zero => exact ⟨hws, rfl, rfl, hinv⟩
  | succ n ih =>
    have hunfold : vdRun v (n + 1) c = vdRun v n (vdStep v c).client := rfl
    rw [hunfold]
    obtain ⟨e1, e2, e3, -, -⟩ := vdStep_effects v hws
    have hinv2 : ClientInv (vdStep v c).client := step_inv _ hinv
    obtain ⟨f1, f2, f3, f4⟩ := ih e1 hinv2
    refine ⟨f1, ?_, by rw [f3, e3], f4⟩
    rw [f2, e2]
    omega

/-- C3: In a run of consecutive `vehicle_disconnected` errors with no
intervening `data:update`, the counter increases by exactly one per error
(so each multiple of 10 is reached exactly once), `too-many-disconnects`
is emitted on an error exactly when the updated counter is a multiple of
10, and a resubscribe timer is scheduled exactly on the other errors. -/
theorem too_many_disconnects_at_multiples
    (c : Client) (w : Ws) (v : String) (k : ℕ)
    (hws : c.ws = some w) (hinv : ClientInv c) :
    (vdStep v (vdRun v k c)).client.disconnects = c.disconnects + k + 1 ∧
    (Output.emitOut .tooManyDisconnectsEv ∈ (vdStep v (vdRun v k c)).out ↔
      (c.disconnects + k + 1) % 10 = 0) ∧
    ((∃ t ∈ (vdStep v (vdRun v k c)).client.timers,
        ∃ tg tk, t.action = .resubscribe tg tk) ↔
      ¬ (c.disconnects + k + 1) % 10 = 0) := by
  obtain ⟨r1, r2, r3, r4⟩ := vdRun_effects v k hws hinv
  set ck := vdRun v k c with hck
  obtain ⟨e1, e2, e3, -, -⟩ := vdStep_effects v r1
  refine ⟨by rw [e2, r2], ?_⟩
  have hc1 : ClientInv (rearmCheck .healthTimeout 15000 ck) := rearmCheck_inv r4
  have hs := disconnectResubscribeFn_spec w.args.tag w.args.token
    "Vehicle disconnected" w.args.resubscribeDelay hc1
  dsimp only [rearmCheck, armCheck, clearT] at hs
  have hout : (vdStep v ck).out =
      (disconnectResubscribeFn w.args.tag w.args.token "Vehicle disconnected"
        w.args.resubscribeDelay (rearmCheck .healthTimeout 15000 ck)).out := by
    unfold vdStep step
    rw [r1]
    unfold messageFn
    dsimp only
    rw [if_pos rfl]
  have htim : (vdStep v ck).client.timers =
      (disconnectResubscribeFn w.args.tag w.args.token "Vehicle disconnected"
        w.args.resubscribeDelay (rearmCheck .healthTimeout 15000 ck)).client.timers := by
    unfold vdStep step
    rw [r1]
    unfold messageFn
    dsimp only
    rw [if_pos rfl]
  dsimp only [rearmCheck, armCheck, clearT] at hout htim
  rw [hout, htim]
  by_cases hmod : (c.disconnects + k + 1) % 10 = 0
  · have hmod' : (ck.disconnects + 1) % 10 = 0 := by rw [r2]; omega
    rw [if_pos hmod'] at hs
    constructor
    · simp [hs.2, hmod]
    · rw [hs.1]
      simp [hmod]
  · have hmod' : ¬ (ck.disconnects + 1) % 10 = 0 := by rw [r2]; omega
    rw [if_neg hmod'] at hs
    constructor
    · simp [hs.2, hmod]
    · rw [hs.1]
      simp only [List.mem_singleton]
      constructor
      · intro
        exact hmod
      · intro
        exact ⟨_, rfl, w.args.tag, w.args.token, rfl⟩

/-- Witness for C3: the first `vehicle_disconnected` error after a
successful handshake (counter 0 → 1, not a multiple of 10). -/
theorem too_many_disconnects_at_multiples_witness :
    (scnHello.ws = some scnWs ∧ ClientInv scnHello) ∧
    ((vdStep "x" (vdRun "x" 0 scnHello)).client.disconnects =
       scnHello.disconnects + 0 + 1 ∧
     (Output.emitOut .tooManyDisconnectsEv ∈ (vdStep "x" (vdRun "x" 0 scnHello)).out ↔
       (scnHello.disconnects + 0 + 1) % 10 = 0) ∧
     ((∃ t ∈ (vdStep "x" (vdRun "x" 0 scnHello)).client.timers,
         ∃ tg tk, t.action = .resubscribe tg tk) ↔
       ¬ (scnHello.disconnects + 0 + 1) % 10 = 0)) :=
  ⟨⟨rfl, by decide⟩,
   too_many_disconnects_at_multiples scnHello scnWs "x" 0 rfl (by decide)⟩

/-- C4: When a vehicle-disconnect resubscribe is scheduled (updated
counter not a multiple of 10), the delay is `delay(disconnects, 0, 8,
1.3)` if LastShiftState is non-empty, and `delay(disconnects,
resubscribeDelay, 120, 2)` if it is null or empty. -/
theorem resubscribe_backoff_profile
    (c : Client) (w : Ws) (v : String)
    (hws : c.ws = some w) (hinv : ClientInv c)
    (hmod : ¬ (c.disconnects + 1) % 10 = 0) :
    (step (.wsMessage (.dataError "vehicle_disconnected" v)) c).client.timers =
      [⟨c.nextTimerId + 1, .resubscribe w.args.tag w.args.token,
        if shiftStateNonEmpty c.lastShiftState then
          expBackOffMs (c.disconnects + 1) 0 8 (13/10)
        else expBackOffMs (c.disconnects + 1) w.args.resubscribeDelay 120 2⟩] := by
  have hc1 : ClientInv (rearmCheck .healthTimeout 15000 c) := rearmCheck_inv hinv
  have hs := disconnectResubscribeFn_spec w.args.tag w.args.token
    "Vehicle disconnected" w.args.resubscribeDelay hc1
  dsimp only [rearmCheck, armCheck, clearT] at hs
  rw [if_neg hmod] at hs
  have htim : (step (.wsMessage (.dataError "vehicle_disconnected" v)) c).client.timers =
      (disconnectResubscribeFn w.args.tag w.args.token "Vehicle disconnected"
        w.args.resubscribeDelay (rearmCheck .healthTimeout 15000 c)).client.timers := by
    unfold step
    rw [hws]
    unfold messageFn
    dsimp only
    rw [if_pos rfl]
  dsimp only [rearmCheck, armCheck, clearT] at htim
  rw [htim]
  exact hs.1

/-- Witness for C4: the first disconnect after the handshake, with
LastShiftState still null (the parked/asleep profile). -/
theorem resubscribe_backoff_profile_witness :
    (scnHello.ws = some scnWs ∧ ClientInv scnHello ∧
     ¬ (scnHello.disconnects + 1) % 10 = 0) ∧
    (step (.wsMessage (.dataError "vehicle_disconnected" "err")) scnHello).client.timers =
      [⟨scnHello.nextTimerId + 1, .resubscribe scnWs.args.tag scnWs.args.token,
        if shiftStateNonEmpty scnHello.lastShiftState then
          expBackOffMs (scnHello.disconnects + 1) 0 8 (13/10)
        else expBackOffMs (scnHello.disconnects + 1) scnWs.args.resubscribeDelay 120 2⟩] :=
  ⟨⟨rfl, by decide, by decide⟩,
   resubscribe_backoff_profile scnHello scnWs "err" rfl (by decide) (by decide)⟩

/-- C1: Every `data:update` frame emits the `stream` event with the
comma-split values and resets both `timeouts` and `disconnects` to 0,
whatever the subscribed columns are; and when "shift_state" additionally
sits at 0-based position `p` of the subscribed columns, LastShiftState is
set to element `p + 1` of the split values (element 0 being the
timestamp). -/
theorem data_update_stream_reset_shift
    (c : Client) (w : Ws) (v : String)
    (hws : c.ws = some w) :
    Output.emitOut (.streamEv (splitComma v)) ∈
      (step (.wsMessage (.update v)) c).out ∧
    (step (.wsMessage (.update v)) c).client.timeouts = 0 ∧
    (step (.wsMessage (.update v)) c).client.disconnects = 0 ∧
    ∀ p : ℕ, w.args.shiftStatePos = jsIndexOf "shift_state" c.columns →
      jsIndexOf "shift_state" c.columns = (p : ℤ) →
      (step (.wsMessage (.update v)) c).client.lastShiftState =
        (splitComma v).get? (p + 1) := by
  unfold step
  rw [hws]
  unfold messageFn
  dsimp only
  refine ⟨by simp, ?_, ?_, ?_⟩
  · split <;> rfl
  · split <;> rfl
  · intro p hpos hp
    have hgt : w.args.shiftStatePos > -1 := by
      rw [hpos, hp]
      omega
    have htn : w.args.shiftStatePos.toNat = p := by
      rw [hpos, hp]
      exact Int.toNat_natCast p
    rw [if_pos hgt, htn]

/-- Witness for C1: the spec's scenario — `connect("t1", "tok",
["shift_state", "speed"])`, then `control:hello`, then `data:update` with
value `"1700000000,P,0"`; the stream event carries
`["1700000000", "P", "0"]` and LastShiftState becomes `"P"`. -/
theorem data_update_stream_reset_shift_witness :
    scnHello.ws = some scnWs ∧
    (Output.emitOut (.streamEv (splitComma "1700000000,P,0")) ∈
       (step (.wsMessage (.update "1700000000,P,0")) scnHello).out ∧
     (step (.wsMessage (.update "1700000000,P,0")) scnHello).client.timeouts = 0 ∧
     (step (.wsMessage (.update "1700000000,P,0")) scnHello).client.disconnects = 0 ∧
     ∀ p : ℕ, scnWs.args.shiftStatePos = jsIndexOf "shift_state" scnHello.columns →
       jsIndexOf "shift_state" scnHello.columns = (p : ℤ) →
       (step (.wsMessage (.update "1700000000,P,0")) scnHello).client.lastShiftState =
         (splitComma "1700000000,P,0").get? (p + 1)) ∧
    splitComma "1700000000,P,0" = ["1700000000", "P", "0"] ∧
    (step (.wsMessage (.update "1700000000,P,0")) scnHello).client.lastShiftState =
      some "P" :=
  ⟨rfl,
   data_update_stream_reset_shift scnHello scnWs "1700000000,P,0" rfl,
   by decide, by decide⟩

lemma disconnectResubscribeFn_client_reason (tag token r1 r2 : String)
    (minDelay : ℚ) (c : Client) :
    (disconnectResubscribeFn tag token r1 minDelay c).client =
      (disconnectResubscribeFn tag token r2 minDelay c).client := by
  unfold disconnectResubscribeFn
  dsimp only
  split <;> rfl

lemma disconnectResubscribeFn_crash (tag token reason : String) (minDelay : ℚ)
    (c : Client) :
    (disconnectResubscribeFn tag token reason minDelay c).crash = none := by
  unfold disconnectResubscribeFn
  dsimp only
  split <;> rfl

lemma offlineEv_not_mem_dr (tag token reason : String) (minDelay : ℚ) (c : Client) :
    Output.emitOut .offlineEv ∉
      (disconnectResubscribeFn tag token reason minDelay c).out := by
  unfold disconnectResubscribeFn
  dsimp only
  split <;> simp

/-- C7: A `data:error` frame with error_type `vehicle_error` emits
`offline` exactly when its message text is `"Vehicle is offline"`, and the
resulting client state (counters, timers, everything) is identical to the
handling of a `vehicle_disconnected` error, with no exception raised. -/
theorem vehicle_error_offline_iff_same_handling
    (c : Client) (w : Ws) (v : String) (hws : c.ws = some w) :
    (Output.emitOut .offlineEv ∈ (step (.wsMessage (.dataError "vehicle_error" v)) c).out ↔
      v = "Vehicle is offline") ∧
    (step (.wsMessage (.dataError "vehicle_error" v)) c).client =
      (step (.wsMessage (.dataError "vehicle_disconnected" v)) c).client ∧
    (step (.wsMessage (.dataError "vehicle_error" v)) c).crash = none := by
  have hve : step (.wsMessage (.dataError "vehicle_error" v)) c =
      ⟨(disconnectResubscribeFn w.args.tag w.args.token ("Vehicle error: " ++ v)
          w.args.resubscribeDelay (rearmCheck .healthTimeout 15000 c)).client,
       (if v = "Vehicle is offline" then [Output.emitOut .offlineEv] else []) ++
         (disconnectResubscribeFn w.args.tag w.args.token ("Vehicle error: " ++ v)
           w.args.resubscribeDelay (rearmCheck .healthTimeout 15000 c)).out,
       (disconnectResubscribeFn w.args.tag w.args.token ("Vehicle error: " ++ v)
         w.args.resubscribeDelay (rearmCheck .healthTimeout 15000 c)).crash⟩ := by
    unfold step
    rw [hws]
    unfold messageFn
    dsimp only
    rw [if_neg (by decide : ¬ ("vehicle_error" : String) = "vehicle_disconnected"),
        if_pos rfl]
  have hvd : step (.wsMessage (.dataError "vehicle_disconnected" v)) c =
      disconnectResubscribeFn w.args.tag w.args.token "Vehicle disconnected"
        w.args.resubscribeDelay (rearmCheck .healthTimeout 15000 c) := by
    unfold step
    rw [hws]
    unfold messageFn
    dsimp only
    rw [if_pos rfl]
  rw [hve, hvd]
  dsimp only
  refine ⟨?_, disconnectResubscribeFn_client_reason _ _ _ _ _ _,
    disconnectResubscribeFn_crash _ _ _ _ _⟩
  by_cases hv : v = "Vehicle is offline"
  · simp [hv]
  · simp [hv, offlineEv_not_mem_dr]

/-- Witness for C7: a `vehicle_error` with text `"Vehicle is offline"`
after the handshake. -/
theorem vehicle_error_offline_iff_same_handling_witness :
    scnHello.ws = some scnWs ∧
    ((Output.emitOut .offlineEv ∈
        (step (.wsMessage (.dataError "vehicle_error" "Vehicle is offline")) scnHello).out ↔
      ("Vehicle is offline" : String) = "Vehicle is offline") ∧
     (step (.wsMessage (.dataError "vehicle_error" "Vehicle is offline")) scnHello).client =
       (step (.wsMessage (.dataError "vehicle_disconnected" "Vehicle is offline")) scnHello).client ∧
     (step (.wsMessage (.dataError "vehicle_error" "Vehicle is offline")) scnHello).crash = none) :=
  ⟨rfl, vehicle_error_offline_iff_same_handling scnHello scnWs "Vehicle is offline" rfl⟩

/-- C8 counterexample: A `data:error` frame with the unrecognized
error_type `"weird_error"` is neither logged nor surfaced through the
`error` event: the handler produces no output at all and instead throws a
ReferenceError (its log statement references the undefined identifier
`data`), refuting the claim that every such frame is logged and surfaced
via `error`. -/
theorem unrecognized_error_type_not_surfaced :
    (step (.wsMessage (.dataError "weird_error" "boom")) scnHello).out = [] ∧
    (step (.wsMessage (.dataError "weird_error" "boom")) scnHello).crash =
      some "ReferenceError: data is not defined" :=
  ⟨rfl, rfl⟩

/-- C8 amended: Frames with an unrecognized `msg_type` or a
`data:error` without `error_type` are logged and surfaced via the `error`
event with no change to connection state, retry counters or
LastShiftState; but a `data:error` with an unrecognized `error_type`
throws a ReferenceError while evaluating its log argument and emits
nothing, and a malformed frame throws a parse error and emits nothing —
in the crash cases too, state, counters and LastShiftState are
unchanged. -/
theorem protocol_error_frames_amended
    (c : Client) (w : Ws) (raw et v : String)
    (hws : c.ws = some w)
    (h1 : ¬ et = "vehicle_disconnected") (h2 : ¬ et = "vehicle_error")
    (h3 : ¬ et = "client_error") :
    (∀ m ∈ [Msg.noErrType raw, Msg.unknownType raw],
      Output.logOut ("Unknown message: " ++ raw) "error" ∈ (step (.wsMessage m) c).out ∧
      Output.emitOut (.errorEv raw) ∈ (step (.wsMessage m) c).out ∧
      (step (.wsMessage m) c).crash = none ∧
      (step (.wsMessage m) c).client.state = c.state ∧
      (step (.wsMessage m) c).client.timeouts = c.timeouts ∧
      (step (.wsMessage m) c).client.disconnects = c.disconnects ∧
      (step (.wsMessage m) c).client.lastShiftState = c.lastShiftState) ∧
    ((step (.wsMessage (.dataError et v)) c).crash =
       some "ReferenceError: data is not defined" ∧
     (step (.wsMessage (.dataError et v)) c).out = [] ∧
     (step (.wsMessage (.dataError et v)) c).client.state = c.state ∧
     (step (.wsMessage (.dataError et v)) c).client.timeouts = c.timeouts ∧
     (step (.wsMessage (.dataError et v)) c).client.disconnects = c.disconnects ∧
     (step (.wsMessage (.dataError et v)) c).client.lastShiftState = c.lastShiftState) ∧
    ((step (.wsMessage (.malformed raw)) c).crash =
       some "SyntaxError: JSON.parse: unexpected input" ∧
     (step (.wsMessage (.malformed raw)) c).out = [] ∧
     (step (.wsMessage (.malformed raw)) c).client.state = c.state ∧
     (step (.wsMessage (.malformed raw)) c).client.timeouts = c.timeouts ∧
     (step (.wsMessage (.malformed raw)) c).client.disconnects = c.disconnects ∧
     (step (.wsMessage (.malformed raw)) c).client.lastShiftState = c.lastShiftState) := by
  refine ⟨?_, ?_, ?_⟩
  · intro m hm
    rcases List.mem_cons.mp hm with rfl | hm2
    · unfold step
      rw [hws]
      unfold messageFn
      dsimp only
      exact ⟨by simp, by simp, rfl, rfl, rfl, rfl, rfl⟩
    · rcases List.mem_singleton.mp hm2 with rfl
      unfold step
      rw [hws]
      unfold messageFn
      dsimp only
      exact ⟨by simp, by simp, rfl, rfl, rfl, rfl, rfl⟩
  · unfold step
    rw [hws]
    unfold messageFn
    dsimp only
    rw [if_neg h1, if_neg h2, if_neg h3]
    exact ⟨rfl, rfl, rfl, rfl, rfl, rfl⟩
  · unfold step
    rw [hws]
    unfold messageFn
    dsimp only
    exact ⟨rfl, rfl, rfl, rfl, rfl, rfl⟩

/-- Witness for C8 (amended) at a concrete unknown frame and the
unrecognized error_type `"server_error"` after the handshake. -/
theorem protocol_error_frames_amended_witness :
    (scnHello.ws = some scnWs ∧
     ¬ ("server_error" : String) = "vehicle_disconnected" ∧
     ¬ ("server_error" : String) = "vehicle_error" ∧
     ¬ ("server_error" : String) = "client_error") ∧
    (Output.emitOut (.errorEv "junk") ∈
       (step (.wsMessage (.unknownType "junk")) scnHello).out ∧
     (step (.wsMessage (.dataError "server_error" "x")) scnHello).out = [] ∧
     (step (.wsMessage (.malformed "junk")) scnHello).crash =
       some "SyntaxError: JSON.parse: unexpected input") :=
  ⟨⟨rfl, by decide, by decide, by decide⟩,
   ((protocol_error_frames_amended scnHello scnWs "junk" "server_error" "x" rfl
       (by decide) (by decide) (by decide)).1 (Msg.unknownType "junk")
     (by simp)).2.1,
   (protocol_error_frames_amended scnHello scnWs "junk" "server_error" "x" rfl
       (by decide) (by decide) (by decide)).2.1.2.1,
   (protocol_error_frames_amended scnHello scnWs "junk" "server_error" "x" rfl
       (by decide) (by decide) (by decide)).2.2.1⟩

/-- C5 code bug: `disconnect(reconnect = false)` while the
transport is still opening does not end in Closed: the deferred
disconnect closure refers to the bare identifier `disconnect` instead of
`this.disconnect`, so when the `open` event fires the handler throws a
ReferenceError and the client stays in Connecting forever. -/
theorem disconnect_while_opening_never_closes :
    scnConnect.state = ConnState.connecting ∧
    scnDeferred.state = ConnState.connecting ∧
    scnDeferred.timers = [] ∧
    scnDeferred.checkTimeout = none ∧
    scnDeferredOpen.crash = some "ReferenceError: disconnect is not defined" ∧
    scnDeferredOpen.client.state = ConnState.connecting ∧
    ¬ scnDeferredOpen.client.state = ConnState.closed ∧
    scnDeferredOpen.out = [] :=
  ⟨rfl, rfl, rfl, rfl, rfl, rfl, by decide, rfl⟩

/-- C9 code bug: The deferred disconnect does not proceed once the
transport opens: the replacement `open` listener evaluates the undefined
identifier `disconnect` and throws, sending neither an unsubscribe nor a
close frame, and the client never reaches Closing or Closed. -/
theorem deferred_disconnect_crashes_on_open :
    scnDeferred.ws = some { scnWs with openBroken := true } ∧
    scnDeferredOpen.crash = some "ReferenceError: disconnect is not defined" ∧
    scnDeferredOpen.out = [] ∧
    scnDeferredOpen.client.ws =
      some { scnWs with readyState := .wsOpen, openBroken := true } ∧
    ¬ scnDeferredOpen.client.state = ConnState.closing ∧
    ¬ scnDeferredOpen.client.state = ConnState.closed :=
  ⟨rfl, rfl, rfl, rfl, by decide, by decide⟩

lemma fireReconnect (d : Client) (tg tk : String) (cols : Option (List String))
    (i : ℕ) (hd : d.timers = [⟨i, .reconnectConnect tg tk cols, 1000⟩])
    (hdw : d.ws = none) :
    ∃ w2, (step (.fireTimer i) d).client.ws = some w2 ∧
      w2.args.tag = tg ∧ w2.args.token = tk ∧ w2.args.columns = cols ∧
      w2.args.resubscribeDelay = 30 := by
  unfold step fireTimerFn
  rw [hd]
  simp only [List.find?, beq_self_eq_true]
  unfold connectFn
  dsimp only
  rw [hdw]
  cases cols with
  | none =>
    dsimp only
    exact ⟨_, rfl, rfl, rfl, rfl, rfl⟩
  | some cs =>
    dsimp only
    exact ⟨_, rfl, rfl, rfl, rfl, rfl⟩

/-- C10: Every automatic reconnect scheduled by the close handler
calls `connect` with only the captured tag, token and columns — the
`resubscribeDelay` argument is omitted, so the new connection's
parked/asleep resubscribe floor reverts to the default 30 even when the
caller originally supplied a different value. -/
theorem reconnect_uses_default_resubscribe_delay
    (c : Client) (w : Ws) (code : ℕ) (reason : String)
    (hws : c.ws = some w) (hinv : ClientInv c)
    (hrec : c.reconnect = true ∨ (code = 1006 ∧ ¬ c.state = ConnState.closing)) :
    (step (.wsClose code reason) c).client.timers =
      [⟨c.nextTimerId, .reconnectConnect w.args.tag w.args.token w.args.columns, 1000⟩] ∧
    ∃ w2, (step (.fireTimer c.nextTimerId)
        (step (.wsClose code reason) c).client).client.ws = some w2 ∧
      w2.args.tag = w.args.tag ∧ w2.args.token = w.args.token ∧
      w2.args.columns = w.args.columns ∧ w2.args.resubscribeDelay = 30 := by
  have hdw : (step (.wsClose code reason) c).client.ws = none := by
    unfold step
    rw [hws]
    unfold closeFn
    dsimp only [clearT, armCheck]
    split <;> split <;> rfl
  have htimers : (step (.wsClose code reason) c).client.timers =
      [⟨c.nextTimerId, .reconnectConnect w.args.tag w.args.token w.args.columns, 1000⟩] := by
    unfold step
    rw [hws]
    unfold closeFn
    dsimp only [clearT, armCheck]
    rcases hrec with hr | hc16
    · by_cases hc : code = 1006 ∧ ¬ c.state = ConnState.closing
      · rw [if_pos hc]
        dsimp only
        rw [if_pos rfl]
        have h2 := clearT_stored_timers
          (clientInv_congr rfl rfl hinv : ClientInv { c with reconnect := true })
        dsimp only [clearT] at h2
        rw [h2]
        rfl
      · rw [if_neg hc]
        rw [if_pos hr]
        have h2 := clearT_stored_timers hinv
        dsimp only [clearT] at h2
        rw [h2]
        rfl
    · rw [if_pos hc16]
      dsimp only
      rw [if_pos rfl]
      have h2 := clearT_stored_timers
        (clientInv_congr rfl rfl hinv : ClientInv { c with reconnect := true })
      dsimp only [clearT] at h2
      rw [h2]
      rfl
  exact ⟨htimers, fireReconnect _ _ _ _ _ htimers hdw⟩

/-- Witness for C10: a clean close of the connected scenario client (its
reconnect flag is still on). -/
theorem reconnect_uses_default_resubscribe_delay_witness :
    (scnHello.ws = some scnWs ∧ ClientInv scnHello ∧ scnHello.reconnect = true) ∧
    ((step (.wsClose 1000 "") scnHello).client.timers =
       [⟨scnHello.nextTimerId,
         .reconnectConnect scnWs.args.tag scnWs.args.token scnWs.args.columns, 1000⟩] ∧
     ∃ w2, (step (.fireTimer scnHello.nextTimerId)
         (step (.wsClose 1000 "") scnHello).client).client.ws = some w2 ∧
       w2.args.tag = scnWs.args.tag ∧ w2.args.token = scnWs.args.token ∧
       w2.args.columns = scnWs.args.columns ∧ w2.args.resubscribeDelay = 30) :=
  ⟨⟨rfl, by decide, rfl⟩,
   reconnect_uses_default_resubscribe_delay scnHello scnWs 1000 "" rfl (by decide)
     (Or.inl rfl)⟩

end TeslaStream
